/-
Verification of the mermaid-render service core against its design notes.

The TypeScript sources are shallowly embedded: pure computations become Lean
functions on Nat/Int/String/List Char; asynchronous interactions with the
external collaborators (the headless browser engine, the COS object store,
the filesystem) are modelled by explicit outcome records ("oracles") that
say how each awaited call would settle, and the embedded function computes
the value/error the TypeScript code would produce for that settlement.
JavaScript exceptions are modelled with `Except JsError`.
-/

import Mathlib

namespace MermaidRender

/--
Model of the JavaScript error values that flow through the service.
`generic` is a plain `new Error(msg)`; `renderError`, `renderTimeoutError`
(classes in src/services/mermaid*.ts) and `cosUploadError` (src/services/cos.ts)
are the custom classes the routes discriminate with `instanceof`;
`puppeteerTimeout` is the TimeoutError thrown by the external puppeteer
engine when a navigation / wait exceeds its deadline (not a repository class).
-/
inductive JsError where
  | generic (msg : String)
  | renderError (msg : String)
  | renderTimeoutError (msg : String)
  | cosUploadError (msg : String)
  | puppeteerTimeout (msg : String)
  deriving DecidableEq, Repr

/-- True exactly for the repository's distinct timeout class `RenderTimeoutError`
(the type `compatibleErrorHandler` / `mermaidErrorHandler` map to HTTP 504). -/
def isRenderTimeoutError : JsError → Bool
  | .renderTimeoutError _ => true
  | _ => false

/-- True for a plain `new Error(...)` value, i.e. an error carrying no
distinct class the boundary layer could discriminate on. -/
def isGenericError : JsError → Bool
  | .generic _ => true
  | _ => false

/-! ## Scale clamp arithmetic (src/services/mermaid-pooled.ts)

`MIN_SCALE`/`MAX_SCALE` are the constants at lines 91-92; `requestedScaleOf`
is line 238 (`Math.max(MIN_SCALE, Math.min(scale, MAX_SCALE))`); the
`maxScaleBy*` / `maxAllowedScale` / `actualScaleOf` definitions are lines
443-448.  Base sizes are the `Math.ceil`-ed bounding-box dimensions, hence
Nat; `Math.floor` of a quotient of positive naturals is Nat division. -/

def MIN_SCALE : Int := 1

def MAX_SCALE : Int := 10

def requestedScaleOf (scale : Int) : Int := max MIN_SCALE (min scale MAX_SCALE)

def maxScaleByWidth (maxWidth baseWidth : Nat) : Nat := maxWidth / baseWidth

def maxScaleByHeight (maxHeight baseHeight : Nat) : Nat := maxHeight / baseHeight

def maxAllowedScale (baseW baseH maxW maxH : Nat) : Nat :=
  max 1 (min (maxScaleByWidth maxW baseW) (maxScaleByHeight maxH baseH))

def actualScaleOf (scale : Int) (baseW baseH maxW maxH : Nat) : Int :=
  min (requestedScaleOf scale) ((maxAllowedScale baseW baseH maxW maxH : Nat) : Int)

/-- Modelled from the spec's words, for comparison with `actualScaleOf`:
"min(requestedScale clamped to [1,10], max(1, min(floor(MAX_WIDTH / baseWidth),
floor(MAX_HEIGHT / baseHeight))))". -/
def specEffectiveDensity (requestedScale : Int) (baseW baseH maxW maxH : Nat) : Int :=
  min (max 1 (min requestedScale 10))
    ((max 1 (min (maxW / baseW) (maxH / baseH)) : Nat) : Int)

/-! ## COS remote-store gateway (src/services/cos.ts, embedded from
src/unnamed/part_001 lines 512-946) -/

/-- URL type selector (`'internal' | 'external'`). -/
inductive UrlType where
  | internal
  | external
  deriving DecidableEq, Repr

/-- The COS configuration record built from environment variables. -/
structure CosCfg where
  bucket : String
  region : String
  baseUrl : String
  internal : Bool
  pathPre : String
  defaultExpires : Nat
  deriving Repr

/-- Default of `COS_HEAD_TIMEOUT_MS` (line 735 of part_001). -/
def DEFAULT_HEAD_TIMEOUT_MS : Nat := 2000

/-- Default of `COS_UPLOAD_TIMEOUT_MS` (line 848 of part_001). -/
def DEFAULT_UPLOAD_TIMEOUT_MS : Nat := 60000

/-- `generateKeyByCacheKey`: `${config.pathPrefix}${prefix}/${cacheKey}.${ext}`
with `prefix = cacheKey.substring(0, 4)`. -/
def generateKeyByCacheKey (cfg : CosCfg) (cacheKey ext : String) : String :=
  cfg.pathPre ++ (cacheKey.take 4) ++ "/" ++ cacheKey ++ "." ++ ext

/-- `buildCosUrl`: custom base URL wins (with a single trailing slash
stripped); otherwise internal/external endpoint per `urlType` or the
global config. -/
def buildCosUrl (cfg : CosCfg) (key : String) (urlType : Option UrlType) : String :=
  if cfg.baseUrl ≠ "" then
    (if cfg.baseUrl.endsWith "/" then cfg.baseUrl.dropRight 1 else cfg.baseUrl) ++ "/" ++ key
  else
    let useInternal : Bool := match urlType with
      | some UrlType.internal => true
      | some UrlType.external => false
      | none => cfg.internal
    if useInternal then
      "https://" ++ cfg.bucket ++ ".cos-internal." ++ cfg.region ++ ".tencentcos.cn/" ++ key
    else
      "https://" ++ cfg.bucket ++ ".cos." ++ cfg.region ++ ".tencentcos.cn/" ++ key

/-- How one `cos.headObject` SDK call settles: the callback fires `delayMs`
milliseconds after the call, carrying `err` (with its optional HTTP status
code), or `none` for success. -/
structure HeadOutcome where
  delayMs : Nat
  err : Option (Option Nat)
  deriving DecidableEq, Repr

/--
`checkFileExists(key)`: a `setTimeout(.., TIMEOUT_MS)` resolves `false` if it
fires before the SDK callback (at equal deadlines the timer, registered
first, fires first); an SDK error of any status resolves `false`; only a
successful head resolves `true`.  The function's promise only ever resolves
(never rejects), which is why the model is total with codomain `Bool`.
-/
def checkFileExists (timeoutMs : Nat) (o : HeadOutcome) : Bool :=
  if timeoutMs ≤ o.delayMs then false
  else
    match o.err with
    | some _ => false
    | none => true

/-- How one `getObjectUrl` (signed URL) SDK call settles. -/
structure SignOutcome where
  err : Option String
  url : String
  deriving DecidableEq, Repr

/-- `getSignedUrl`: rejects with `CosUploadError` on SDK error. -/
def getSignedUrl (o : SignOutcome) : Except JsError String :=
  match o.err with
  | some m => .error (.cosUploadError ("Failed to get signed URL: " ++ m))
  | none => .ok o.url

/-- `getCosUrl`: signed URL when the effective expiry is positive, else the
permanent URL from `buildCosUrl`. -/
def getCosUrl (cfg : CosCfg) (key : String) (urlType : Option UrlType)
    (expires : Option Nat) (sign : SignOutcome) : Except JsError String :=
  let effectiveExpires := expires.getD cfg.defaultExpires
  if effectiveExpires > 0 then getSignedUrl sign
  else .ok (buildCosUrl cfg key urlType)

/-- Result record of the upload entry points (`UploadResult`). -/
structure UploadResult where
  url : String
  key : String
  cached : Bool
  expiresAt : Option Nat
  deriving DecidableEq, Repr

/-- How one `cos.putObject` SDK call settles. -/
structure PutOutcome where
  delayMs : Nat
  err : Option String
  deriving DecidableEq, Repr

/-- The settlements of the SDK calls one `uploadToCosWithCacheKey` run makes. -/
structure UploadOracle where
  head : HeadOutcome
  put : PutOutcome
  sign : SignOutcome
  deriving DecidableEq, Repr

/-- Arguments of `uploadToCosWithCacheKey` (`UploadWithCacheKeyOptions`). -/
structure UploadWithCacheKeyArgs where
  format : String
  cacheKey : String
  urlType : Option UrlType
  expires : Option Nat
  deriving Repr

/--
`uploadToCosWithCacheKey`: derive the key from the cache key, re-check
existence with `checkFileExists`; on a hit return the resolved URL with
`cached := true` without uploading; otherwise `putObject` bounded by the
upload timeout, rejecting with `CosUploadError` on timer expiry or SDK
error, and resolving with `cached := false` on success.  The second
component of the result records whether a `putObject` call was issued.
`nowSec` models `Math.floor(Date.now() / 1000)`.
-/
def uploadToCosWithCacheKey (cfg : CosCfg) (headTimeoutMs uploadTimeoutMs nowSec : Nat)
    (a : UploadWithCacheKeyArgs) (o : UploadOracle) :
    Except JsError UploadResult × Bool :=
  let key := generateKeyByCacheKey cfg a.cacheKey a.format
  let effectiveExpires := a.expires.getD cfg.defaultExpires
  let expiresAt : Option Nat :=
    if effectiveExpires > 0 then some (nowSec + effectiveExpires) else none
  if checkFileExists headTimeoutMs o.head then
    match getCosUrl cfg key a.urlType a.expires o.sign with
    | .error e => (.error e, false)
    | .ok url => (.ok { url := url, key := key, cached := true, expiresAt := expiresAt }, false)
  else
    if uploadTimeoutMs ≤ o.put.delayMs then
      (.error (.cosUploadError ("Upload timeout after " ++ toString uploadTimeoutMs ++ "ms")), true)
    else
      match o.put.err with
      | some m => (.error (.cosUploadError ("Failed to upload to COS: " ++ m)), true)
      | none =>
        match getCosUrl cfg key a.urlType a.expires o.sign with
        | .error e => (.error e, true)
        | .ok url => (.ok { url := url, key := key, cached := false, expiresAt := expiresAt }, true)

/-! ## Browser pool (src/services/browser-pool.ts)

`acquirePage` runs synchronously from the idle-page scan through the
capacity check `pages.length < maxPages`, then suspends at
`await browser.newPage()` / `await page.setViewport(...)` and only
afterwards pushes the new in-use entry.  The model therefore splits
acquisition into two atomic steps (`runAcquire`, `finishCreate`) with other
tasks free to interleave between them, which is exactly what Node's event
loop allows.  `pollFree` is one synchronous iteration of
`waitForFreePage`'s `check()`, and `release` is `releasePage`. -/

/-- Where one logical caller of `acquirePage` currently stands. -/
inductive TaskPhase where
  | started
  | creating
  | waiting
  | holding (idx : Nat)
  deriving DecidableEq, Repr

/-- Pool state: `pages` holds the `inUse` flag of each pooled page in
creation order; `tasks` the phase of each concurrent caller. -/
structure PoolState where
  pages : List Bool
  tasks : List TaskPhase
  deriving DecidableEq, Repr

/-- Index of the first idle page, as the linear scan in `acquirePage` /
`waitForFreePage` finds it. -/
def findFreePage (pages : List Bool) : Option Nat :=
  pages.findIdx? (fun inUse => !inUse)

/-- Atomic interleaving events of the pool. -/
inductive PoolEvent where
  | runAcquire (tid : Nat)
  | finishCreate (tid : Nat)
  | pollFree (tid : Nat)
  | release (idx : Nat)
  deriving DecidableEq, Repr

/-- One atomic step of the pool; events whose task is not in the right
phase leave the state unchanged. -/
def poolStep (maxPages : Nat) (s : PoolState) (e : PoolEvent) : PoolState :=
  match e with
  | .runAcquire tid =>
    match s.tasks.get? tid with
    | some .started =>
      match findFreePage s.pages with
      | some i => { pages := s.pages.set i true, tasks := s.tasks.set tid (.holding i) }
      | none =>
        if s.pages.length < maxPages then
          { s with tasks := s.tasks.set tid .creating }
        else
          { s with tasks := s.tasks.set tid .waiting }
    | _ => s
  | .finishCreate tid =>
    match s.tasks.get? tid with
    | some .creating =>
      { pages := s.pages ++ [true], tasks := s.tasks.set tid (.holding s.pages.length) }
    | _ => s
  | .pollFree tid =>
    match s.tasks.get? tid with
    | some .waiting =>
      match findFreePage s.pages with
      | some i => { pages := s.pages.set i true, tasks := s.tasks.set tid (.holding i) }
      | none => s
    | _ => s
  | .release idx => { s with pages := s.pages.set idx false }

/-- Run a sequence of interleaved pool events. -/
def poolRun (maxPages : Nat) (s : PoolState) (evs : List PoolEvent) : PoolState :=
  evs.foldl (poolStep maxPages) s

/-- Number of pooled pages currently marked in use (`getActiveCount`). -/
def inUseCount (s : PoolState) : Nat := s.pages.count true

/-! ### waitForFreePage timing (src/services/browser-pool.ts lines 176-197)

The 30000 ms rejection timer is registered before the first `check()`;
`check()` runs at 0 ms and then every 100 ms, so exactly the 300 polls at
0, 100, ..., 29900 ms run before the timer fires and rejects with a plain
`new Error('Timeout waiting for available page')`. -/

def WAIT_TIMEOUT_MS : Nat := 30000

def POLL_INTERVAL_MS : Nat := 100

def waitPollCount : Nat := WAIT_TIMEOUT_MS / POLL_INTERVAL_MS

/-- `waitForFreePage`, abstracted over which polls observe a free page:
`freeAt n` says whether the scan at the n-th poll finds an idle page. -/
def waitForFreePage (freeAt : Nat → Bool) : Except JsError Unit :=
  if (List.range waitPollCount).any (fun n => freeAt n) then .ok ()
  else .error (.generic "Timeout waiting for available page")

/-! ## Pooled render pipeline (src/services/mermaid-pooled.ts)

`generateMermaidDiagram` is embedded over a `RenderOracle` recording how
each awaited engine/filesystem interaction settles.  The `try` body is
`renderBody`; the surrounding `try/finally` (lines 247-731) is
`generateMermaidDiagram`: the `finally` block always attempts the temp-file
unlink (errors ignored) and, when `acquirePage` had succeeded, performs
exactly one `browserPool.releasePage(page)` call. -/

/-- Options of `generateMermaidDiagram` after destructuring defaults
(`format = 'svg'`, `theme = 'default'`, `backgroundColor = 'white'`,
`scale = 1`). -/
structure GenOptions where
  code : String
  format : String
  theme : String
  backgroundColor : String
  scale : Int
  deriving Repr

/-- Environment limits `MAX_WIDTH` / `MAX_HEIGHT` (default 10000). -/
structure RenderEnv where
  maxWidth : Nat
  maxHeight : Nat
  deriving Repr

/-- Settlements of the awaited steps of one pooled render, in program
order.  `waitFaIcons*` model the `waitForFunction(...).catch(() => {})`
calls whose failures the source swallows; `svgElement*` whether the
corresponding `page.$('.mermaid svg')` query returns an element;
`extractSvg` the `page.evaluate` of the SVG extraction script, yielding
`some html` when the script found and serialized the SVG. -/
structure RenderOracle where
  acquire : Except JsError Unit
  writeHtml : Except JsError Unit
  setViewport1 : Except JsError Unit
  goto1 : Except JsError Unit
  waitSelector1 : Except JsError Unit
  waitFaIcons1 : Except JsError Unit
  fixSvg1 : Except JsError Unit
  svgElement1 : Bool
  boundingBox1 : Option (Nat × Nat)
  setViewport2 : Except JsError Unit
  goto2 : Except JsError Unit
  waitSelector2 : Except JsError Unit
  waitFaIcons2 : Except JsError Unit
  fixSvg2 : Except JsError Unit
  svgElementFinal : Bool
  extractSvg : Except JsError (Option String)
  boundingBox2 : Option (Nat × Nat)
  setViewport3 : Except JsError Unit
  evalPdfStyle : Except JsError Unit
  pdfData : Except JsError String
  evalPngViewBox : Except JsError Unit
  screenshotData : Except JsError String
  deriving Repr

/-- Output of a successful render: raw data and content type. -/
structure RenderOutput where
  data : String
  contentType : String
  deriving DecidableEq, Repr

/-- The `try` body of `generateMermaidDiagram` after `acquirePage`
succeeded.  Every error raised by an awaited step propagates unchanged —
the `catch` block at lines 707-710 only logs and rethrows (`throw error`). -/
def renderBody (env : RenderEnv) (opts : GenOptions) (o : RenderOracle) :
    Except JsError RenderOutput := do
  o.writeHtml
  o.setViewport1
  o.goto1
  o.waitSelector1
  o.fixSvg1
  if !o.svgElement1 then
    throw (.generic "Failed to render Mermaid diagram: SVG element not found")
  let (baseW, baseH) ← match o.boundingBox1 with
    | some p => pure p
    | none => throw (.generic "Failed to get SVG bounding box")
  let actualScale := actualScaleOf opts.scale baseW baseH env.maxWidth env.maxHeight
  if 1 < actualScale then do
    o.setViewport2
    o.goto2
    o.waitSelector2
    o.fixSvg2
  if !o.svgElementFinal then
    throw (.generic "Failed to render Mermaid diagram: SVG element not found after size adjustment")
  if opts.format = "svg" then
    match ← o.extractSvg with
    | some html => pure { data := html, contentType := "image/svg+xml" }
    | none => throw (.generic "Failed to extract SVG content")
  else if opts.format = "pdf" then do
    let _ ← match o.boundingBox2 with
      | some p => pure p
      | none => throw (.generic "Failed to get SVG bounding box")
    o.setViewport3
    o.evalPdfStyle
    let d ← o.pdfData
    pure { data := d, contentType := "application/pdf" }
  else do
    o.evalPngViewBox
    let d ← o.screenshotData
    pure { data := d, contentType := "image/png" }

/-- Observable effects of one `generateMermaidDiagram` call: its
result/exception, how many times `releasePage` ran, and whether the
`finally` block's unconditional unlink left no temp HTML file behind. -/
structure RenderEffects where
  result : Except JsError RenderOutput
  releases : Nat
  tempFileDeleted : Bool
  deriving Repr

/-- `generateMermaidDiagram` with its `try/finally`: if `acquirePage`
throws, `page` is still `null`, so the `finally` block only attempts the
unlink; otherwise the body runs and the `finally` block unlinks the temp
file and releases the page exactly once, on success and failure alike. -/
def generateMermaidDiagram (env : RenderEnv) (opts : GenOptions) (o : RenderOracle) :
    RenderEffects :=
  match o.acquire with
  | .error e => { result := .error e, releases := 0, tempFileDeleted := true }
  | .ok _ => { result := renderBody env opts o, releases := 1, tempFileDeleted := true }

/-! ## CLI fallback timeout mapping (src/services/mermaid.ts lines 199-239) -/

/-- How the `exec` of the `mmdc` command settles: success, or an error
object with its `killed` flag and `signal`. -/
inductive ExecResult where
  | success (stdout stderr : String)
  | failure (killed : Bool) (signal : Option String) (msg : String) (stderr : String)
  deriving DecidableEq, Repr

/-- `execWithTimeout`: a killed process (or SIGTERM signal) is reported as
`RenderTimeoutError`; any other failure as `RenderError`. -/
def execWithTimeout (timeoutMs : Nat) (r : ExecResult) : Except JsError (String × String) :=
  match r with
  | .success out err => .ok (out, err)
  | .failure killed signal msg stderr =>
    if killed ∨ signal = some "SIGTERM" then
      .error (.renderTimeoutError ("Rendering timed out after " ++ toString (timeoutMs / 1000) ++ " seconds"))
    else
      .error (.renderError ("Mermaid rendering failed: " ++ msg ++ "\n" ++ stderr))

/-! ## Fingerprint (src/services/cache.ts, embedded from part_001 lines 947-1189)

`generateCacheKey` builds
`JSON.stringify({code, format, theme, width: width || null, height: height || null, backgroundColor, scale})`
(object-literal insertion order) and hashes the text with MD5.  The JSON
serialization is embedded exactly: strings escape `"`, backslash and
control characters (`\n`, `\r`, `\t`, `\b`, `\f`, `\u00XX`), numbers print
in decimal, absent or zero (falsy) width/height print as `null`, and the
destructuring defaults are `theme = 'default'`, `backgroundColor = 'white'`,
`scale = 1`.  MD5 itself is a platform primitive (`crypto.createHash`),
abstracted as a parameter `md5 : List Char → String`: determinism holds for
every such function and field-sensitivity for every collision-free
(injective) one. -/

/-- Lowercase hex digit, as `JSON.stringify` prints `\u00xx` escapes. -/
def hexDigitChar (n : Nat) : Char :=
  if n < 10 then Char.ofNat (48 + n) else Char.ofNat (87 + n)

/-- JSON escape of one character inside a string literal. -/
def jsonEscapeChar (c : Char) : List Char :=
  if c = '"' then ['\\', '"']
  else if c = '\\' then ['\\', '\\']
  else if c = '\n' then ['\\', 'n']
  else if c = '\r' then ['\\', 'r']
  else if c = '\t' then ['\\', 't']
  else if c.toNat = 8 then ['\\', 'b']
  else if c.toNat = 12 then ['\\', 'f']
  else if c.toNat < 32 then
    ['\\', 'u', '0', '0', hexDigitChar (c.toNat / 16), hexDigitChar (c.toNat % 16)]
  else [c]

/-- JSON escape of a whole string body. -/
def jsonEscape (s : List Char) : List Char := s.flatMap jsonEscapeChar

/-- Inverse hex digit (proof tool for injectivity, not part of the program). -/
def hexVal (c : Char) : Option Nat :=
  if 48 ≤ c.toNat ∧ c.toNat ≤ 57 then some (c.toNat - 48)
  else if 97 ≤ c.toNat ∧ c.toNat ≤ 102 then some (c.toNat - 87)
  else none

/-- Decoder of the JSON string-body escape (proof tool: its round trip with
`jsonEscape` establishes that the escape is injective). -/
def jsonUnescape : List Char → Option (List Char)
  | [] => some []
  | c :: rest =>
    if c = '\\' then
      match rest with
      | [] => none
      | d :: rest2 =>
        if d = '"' then (jsonUnescape rest2).map (fun t => '"' :: t)
        else if d = '\\' then (jsonUnescape rest2).map (fun t => '\\' :: t)
        else if d = 'n' then (jsonUnescape rest2).map (fun t => '\n' :: t)
        else if d = 'r' then (jsonUnescape rest2).map (fun t => '\r' :: t)
        else if d = 't' then (jsonUnescape rest2).map (fun t => '\t' :: t)
        else if d = 'b' then (jsonUnescape rest2).map (fun t => Char.ofNat 8 :: t)
        else if d = 'f' then (jsonUnescape rest2).map (fun t => Char.ofNat 12 :: t)
        else if d = 'u' then
          match rest2 with
          | h1 :: h2 :: h3 :: h4 :: rest3 =>
            match hexVal h1, hexVal h2, hexVal h3, hexVal h4 with
            | some v1, some v2, some v3, some v4 =>
              (jsonUnescape rest3).map
                (fun t => Char.ofNat (4096 * v1 + 256 * v2 + 16 * v3 + v4) :: t)
            | _, _, _, _ => none
          | _ => none
        else none
    else (jsonUnescape rest).map (fun t => c :: t)

/-- Decimal digits of a natural number, as JSON prints numbers. -/
def natChars (n : Nat) : List Char :=
  if n < 10 then [Char.ofNat (48 + n)]
  else natChars (n / 10) ++ [Char.ofNat (48 + n % 10)]
termination_by n
decreasing_by exact Nat.div_lt_self (by omega) (by omega)

/-- Decimal representation of an integer. -/
def intChars (i : Int) : List Char :=
  if i < 0 then '-' :: natChars i.natAbs else natChars i.toNat

/-- The JSON `null` literal. -/
def nullChars : List Char := ['n', 'u', 'l', 'l']

/-- The `CacheKey` options record of cache.ts; optional fields model
TypeScript `undefined`. -/
structure CacheKeyOpts where
  code : String
  format : String
  theme : Option String
  width : Option Int
  height : Option Int
  backgroundColor : Option String
  scale : Option Int
  deriving Repr

/-- `theme = 'default'` destructuring default. -/
def effTheme (k : CacheKeyOpts) : String := k.theme.getD "default"

/-- `backgroundColor = 'white'` destructuring default. -/
def effBg (k : CacheKeyOpts) : String := k.backgroundColor.getD "white"

/-- `scale = 1` destructuring default. -/
def effScale (k : CacheKeyOpts) : Int := k.scale.getD 1

/-- The value class `width || null` actually discriminates: JavaScript `||`
collapses the falsy `0` to `null`, so `some 0` serializes like `none`. -/
def effNum (w : Option Int) : Option Int :=
  match w with
  | none => none
  | some v => if v = 0 then none else some v

/-- A serialized JSON string literal (quote, escaped body, quote). -/
def jsonStrLit (s : String) : List Char := '"' :: (jsonEscape s.data ++ ['"'])

/-- Serialization of the `width || null` / `height || null` fields. -/
def jsonNumOrNull (w : Option Int) : List Char :=
  match w with
  | none => nullChars
  | some v => if v = 0 then nullChars else intChars v

/-- The `keyContent` JSON text as a function of the seven serialized
values, right-nested for the cancellation proofs. -/
def keyContentOf (code fmt theme : String) (w hgt : Option Int) (bg : String)
    (scl : Int) : List Char :=
  "\x7b\"code\":".data ++ (jsonStrLit code ++
  (",\"format\":".data ++ (jsonStrLit fmt ++
  (",\"theme\":".data ++ (jsonStrLit theme ++
  (",\"width\":".data ++ (jsonNumOrNull w ++
  (",\"height\":".data ++ (jsonNumOrNull hgt ++
  (",\"backgroundColor\":".data ++ (jsonStrLit bg ++
  (",\"scale\":".data ++ (intChars scl ++ "\x7d".data)))))))))))))

/-- The `keyContent` of a `CacheKey` record, with the destructuring
defaults applied as the source does. -/
def keyContent (k : CacheKeyOpts) : List Char :=
  keyContentOf k.code k.format (effTheme k) k.width k.height (effBg k) (effScale k)

/-- `generateCacheKey`: MD5 digest (abstracted) of the key content. -/
def generateCacheKey (md5 : List Char → String) (k : CacheKeyOpts) : String :=
  md5 (keyContent k)

/-- Scanner for a serialized string literal body: consumes up to the first
unescaped quote (proof tool establishing that a JSON string literal is
self-delimiting inside a concatenation). -/
def splitStrBody : List Char → Option (List Char × List Char)
  | [] => none
  | c :: rest =>
    if c = '"' then some ([], rest)
    else if c = '\\' then
      match rest with
      | [] => none
      | d :: rest2 => (splitStrBody rest2).map (fun p => (c :: d :: p.1, p.2))
    else (splitStrBody rest).map (fun p => (c :: p.1, p.2))

/-- Scanner up to the first comma (proof tool delimiting number/null
fields, whose serializations never contain a comma). -/
def splitUntilComma : List Char → Option (List Char × List Char)
  | [] => none
  | c :: rest =>
    if c = ',' then some ([], rest)
    else (splitUntilComma rest).map (fun p => (c :: p.1, p.2))

/-! ## The /generate request orchestrator (src/routes/mermaid.ts, embedded
from part_002; handleRender of src/routes/compatible.ts lines 300-323 has
the identical COS-first structure) -/

/-- The parsed request body fields the route reads (`GenerateRequestBody`);
`width`/`height` are the `parseInt` results (`0` is falsy, so a zero query
value already parses to `undefined`), `ret` is the `return` delivery field. -/
structure GenerateBody where
  code : String
  format : Option String
  theme : Option String
  width : Option Int
  height : Option Int
  backgroundColor : Option String
  ret : Option String
  urlType : Option String
  expires : Option Int
  deriving Repr

/-- JavaScript `value || defaultValue` on strings (empty string is falsy). -/
def jsOrDefault (v : Option String) (d : String) : String :=
  match v with
  | none => d
  | some s => if s = "" then d else s

/-- Character-wise lower-casing (model of JavaScript `toLowerCase` on the
ASCII option values the route compares against). -/
def jsToLower (s : String) : String := String.mk (s.data.map Char.toLower)

/-- `(body.return?.toLowerCase() as ReturnFormat) || 'binary'`. -/
def effRet (b : GenerateBody) : String :=
  match b.ret with
  | none => "binary"
  | some s => if jsToLower s = "" then "binary" else jsToLower s

/-- The affecting fields the route passes to `generateCacheKey`
(lines 180-188 of part_002): trimmed code, defaulted format/theme/
backgroundColor, parsed width/height — and no `scale` (the body has no
scale field, so `generateCacheKey` serializes its default `scale = 1`). -/
def routeAffectingKey (b : GenerateBody) : CacheKeyOpts :=
  { code := b.code.trim
  , format := jsOrDefault b.format "svg"
  , theme := some (jsOrDefault b.theme "default")
  , width := b.width
  , height := b.height
  , backgroundColor := some (jsOrDefault b.backgroundColor "white")
  , scale := none }

/-- The fingerprint the orchestrator computes per call. -/
def routeCacheKey (md5 : List Char → String) (b : GenerateBody) : String :=
  generateCacheKey md5 (routeAffectingKey b)

/-- Result of `checkCosByCacheKey` (`CheckCosResult`; `found` models the
`exists` field). -/
structure CheckCosResult where
  found : Bool
  url : Option String
  key : Option String
  expiresAt : Option Nat
  deriving Repr

/-- JavaScript truthiness of an optional string (empty string is falsy). -/
def truthyStr : Option String → Bool
  | none => false
  | some s => s ≠ ""

/-- Result of `getFromCache` (`CacheResult`). -/
structure CacheResultM where
  data : String
  contentType : String
  deriving Repr

/-- Settlements of the awaited calls one `/generate` handling makes. -/
structure RouteOracle where
  cosCheck : CheckCosResult
  localCache : Option CacheResultM
  render : Except JsError RenderOutput
  upload : Except JsError UploadResult
  deriving Repr

/-- The awaited service calls the route issues, in order.  Pool sessions
are acquired only inside `renderCall` (the pipeline), so a trace without
`renderCall` acquires no session. -/
inductive RouteAction where
  | cosCheckCall
  | localCacheCall
  | renderCall
  | saveCacheCall
  | uploadCall
  deriving DecidableEq, Repr

/-- `getContentTypeForFormat`. -/
def getContentTypeForFormat (f : String) : String :=
  if f = "png" then "image/png"
  else if f = "pdf" then "application/pdf"
  else "image/svg+xml"

/-- The JSON (or binary) response surface the claimed properties read. -/
structure RouteResponse where
  status : Nat
  cached : Bool
  cacheSource : Option String
  contentType : Option String
  url : Option String
  key : Option String
  expiresAt : Option Nat
  body : Option String
  deriving Repr

/-- Status the route error handlers assign to a thrown error
(`mermaidErrorHandler` / `compatibleErrorHandler`; anything unrecognized
falls through to the default 500 handler). -/
def errorStatus : JsError → Nat
  | .renderTimeoutError _ => 504
  | .renderError _ => 400
  | .cosUploadError _ => 500
  | _ => 500

/-- Delivery of rendered/cached bytes per return format (the
`switch (returnFormat)` at the end of the route), given whether the bytes
came from the local cache. -/
def deliverResult (b : GenerateBody) (o : RouteOracle) (data contentType : String)
    (cacheHit : Bool) : RouteResponse × List RouteAction :=
  if effRet b = "base64" then
    ({ status := 200, cached := cacheHit,
       cacheSource := if cacheHit then some "local" else none,
       contentType := some contentType,
       url := none, key := none, expiresAt := none, body := some data }, [])
  else if effRet b = "url" then
    match o.upload with
    | .error e =>
      ({ status := errorStatus e, cached := false, cacheSource := none,
         contentType := none,
         url := none, key := none, expiresAt := none, body := none }, [.uploadCall])
    | .ok r =>
      ({ status := 200, cached := cacheHit || r.cached,
         cacheSource := if cacheHit then some "local" else if r.cached then some "cos" else none,
         contentType := some contentType,
         url := some r.url, key := some r.key, expiresAt := r.expiresAt, body := none },
       [.uploadCall])
  else
    ({ status := 200, cached := cacheHit,
       cacheSource := if cacheHit then some "local" else none,
       contentType := some contentType,
       url := none, key := none, expiresAt := none, body := some data }, [])

/-- The `/generate` orchestration after validation: for `return=url` check
COS first and short-circuit on a hit; otherwise local cache, then render on
miss (persisting to the local cache when enabled), then deliver. -/
def routeGenerate (b : GenerateBody) (o : RouteOracle) (cacheEnabled : Bool) :
    RouteResponse × List RouteAction :=
  if effRet b = "url" ∧
      (o.cosCheck.found && truthyStr o.cosCheck.url && truthyStr o.cosCheck.key) then
    ({ status := 200, cached := true, cacheSource := some "cos",
       contentType := some (getContentTypeForFormat (jsOrDefault b.format "svg")),
       url := o.cosCheck.url, key := o.cosCheck.key,
       expiresAt := o.cosCheck.expiresAt, body := none }, [.cosCheckCall])
  else
    let pre : List RouteAction := if effRet b = "url" then [.cosCheckCall] else []
    match o.localCache with
    | some hit =>
      let (resp, acts) := deliverResult b o hit.data hit.contentType true
      (resp, pre ++ [.localCacheCall] ++ acts)
    | none =>
      match o.render with
      | .error e =>
        ({ status := errorStatus e, cached := false, cacheSource := none,
           contentType := none,
           url := none, key := none, expiresAt := none, body := none },
         pre ++ [.localCacheCall, .renderCall])
      | .ok out =>
        let save : List RouteAction := if cacheEnabled then [.saveCacheCall] else []
        let (resp, acts) := deliverResult b o out.data out.contentType false
        (resp, pre ++ [.localCacheCall, .renderCall] ++ save ++ acts)

/-! ## HTML generation and escaping (src/services/mermaid-pooled.ts lines 104-213)

`generateMermaidHtml` escapes the diagram code with five chained global
`String.replace` calls (`&` first, then `<`, `>`, `"`, the apostrophe) and
interpolates only the escaped text into the `<pre class="mermaid">` element
of the generated document.  Strings are modelled as `List Char`; each
`.replace(/c/g, rep)` with a single-character pattern is `replaceChar`. -/

/-- The apostrophe character (U+0027). -/
def aposChar : Char := Char.ofNat 39

/-- One global single-character replace: every occurrence of `c` becomes
`rep`, other characters are kept. -/
def replaceChar (c : Char) (rep : List Char) : List Char → List Char
  | [] => []
  | x :: xs => (if x = c then rep else [x]) ++ replaceChar c rep xs

/-- `&amp;` -/
def ampEnt : List Char := ['&', 'a', 'm', 'p', ';']

/-- `&lt;` -/
def ltEnt : List Char := ['&', 'l', 't', ';']

/-- `&gt;` -/
def gtEnt : List Char := ['&', 'g', 't', ';']

/-- `&quot;` -/
def quotEnt : List Char := ['&', 'q', 'u', 'o', 't', ';']

/-- `&#39;` -/
def aposEnt : List Char := ['&', '#', '3', '9', ';']

/-- The `escapedCode` computation: the source's five chained replaces in
their source order (`&` innermost/first). -/
def escapeCode (s : List Char) : List Char :=
  replaceChar aposChar aposEnt
    (replaceChar '"' quotEnt
      (replaceChar '>' gtEnt
        (replaceChar '<' ltEnt
          (replaceChar '&' ampEnt s))))

/-- Modelled from the claim's words, for comparison with `escapeCode`: the
single-pass character-to-entity substitution replacing every occurrence of
each special character with its entity. -/
def htmlEntity (c : Char) : List Char :=
  if c = '&' then ampEnt
  else if c = '<' then ltEnt
  else if c = '>' then gtEnt
  else if c = '"' then quotEnt
  else if c = aposChar then aposEnt
  else [c]

/-- Module-level loading configuration of `mermaid-pooled.ts`: CDN URLs
and the embedded file contents read at startup. -/
structure HtmlEnv where
  mermaidCdnUrl : Option String
  mermaidJsContent : String
  fontAwesomeJsUrl : Option String
  fontAwesomeJsContent : String
  deriving Repr

/-- Options of `generateMermaidHtml` (`MermaidHtmlOptions`). -/
structure MermaidHtmlOptions where
  code : String
  theme : String
  backgroundColor : String
  deriving Repr

/-- The `mermaidScript` chunk: CDN `<script src>` when a CDN URL is set,
else the embedded file content. -/
def mermaidScriptTag (env : HtmlEnv) : String :=
  match env.mermaidCdnUrl with
  | some url => "<script src=\"" ++ url ++ "\"></script>"
  | none => "<script>" ++ env.mermaidJsContent ++ "</script>"

/-- The `fontAwesomeScript` chunk. -/
def fontAwesomeScriptTag (env : HtmlEnv) : String :=
  match env.fontAwesomeJsUrl with
  | some url => "<script src=\"" ++ url ++ "\"></script>"
  | none => "<script>" ++ env.fontAwesomeJsContent ++ "</script>"

/-- The document text before the escaped code (template start through
`<pre class="mermaid">`), with the background color interpolated where the
template does. -/
def mermaidHtmlPre (env : HtmlEnv) (o : MermaidHtmlOptions) : String :=
  "\n<!DOCTYPE html>\n<html>\n<head>\n  <meta charset=\"utf-8\">\n  "
  ++ fontAwesomeScriptTag env
  ++ "\n  <style>\n    body \x7b\n      margin: 0;\n      padding: 8px;\n      background-color: "
  ++ o.backgroundColor
  ++ ";\n      display: flex;\n      justify-content: center;\n      align-items: flex-start;\n    \x7d\n    #container \x7b\n      max-width: 100%;\n    \x7d\n    .mermaid \x7b\n      font-family: -apple-system, BlinkMacSystemFont, \"Segoe UI\", \"PingFang SC\", \"Hiragino Sans GB\", \"Microsoft YaHei\", \"Helvetica Neue\", Helvetica, Arial, sans-serif;\n    \x7d\n    /* 确保 foreignObject 内容不被截断 */\n    .mermaid foreignObject \x7b\n      overflow: visible !important;\n    \x7d\n    .mermaid foreignObject > div \x7b\n      overflow: visible !important;\n      white-space: nowrap !important;\n    \x7d\n    /* Font Awesome 图标样式修复 */\n    .mermaid .svg-inline--fa \x7b\n      display: inline-block;\n      vertical-align: -0.125em;\n      overflow: visible;\n      /* 确保图标没有背景 */\n      background: transparent !important;\n    \x7d\n    .mermaid .svg-inline--fa path \x7b\n      /* 继承父元素颜色 */\n      fill: currentColor;\n    \x7d\n    /* 确保 nodeLabel 中的图标正确对齐 */\n    .mermaid .nodeLabel \x7b\n      display: inline-flex !important;\n      align-items: center !important;\n      gap: 4px !important;\n    \x7d\n    /* 边缘标签样式修复 - 使用与页面一致的背景色 */\n    .mermaid .edgeLabel \x7b\n      background-color: "
  ++ o.backgroundColor
  ++ " !important;\n    \x7d\n    .mermaid .edgeLabel rect \x7b\n      fill: "
  ++ o.backgroundColor
  ++ " !important;\n      background-color: "
  ++ o.backgroundColor
  ++ " !important;\n    \x7d\n    .mermaid .edgeLabel .svg-inline--fa \x7b\n      margin: 0 2px;\n      background: transparent !important;\n    \x7d\n    /* edgeLabel span 透明背景 */\n    .mermaid .edgeLabel span \x7b\n      background-color: transparent !important;\n    \x7d\n    .mermaid .labelBkg \x7b\n      background-color: "
  ++ o.backgroundColor
  ++ " !important;\n    \x7d\n  </style>\n</head>\n<body>\n  <div id=\"container\">\n    <pre class=\"mermaid\">"

/-- The document text after the escaped code (closing the `<pre>` through
the end of the template), with the theme interpolated where the template
does. -/
def mermaidHtmlPost (env : HtmlEnv) (o : MermaidHtmlOptions) : String :=
  "</pre>\n  </div>\n  "
  ++ mermaidScriptTag env
  ++ "\n  <script>\n    mermaid.initialize(\x7b\n      startOnLoad: true,\n      theme: \x27"
  ++ o.theme
  ++ "\x27,\n      securityLevel: \x27loose\x27,\n      fontFamily: \x27-apple-system, BlinkMacSystemFont, \"Segoe UI\", \"PingFang SC\", \"Hiragino Sans GB\", \"Microsoft YaHei\", \"Helvetica Neue\", Helvetica, Arial, sans-serif\x27,\n      flowchart: \x7b\n        htmlLabels: true,\n        useMaxWidth: false\n      \x7d\n    \x7d);\n  </script>\n</body>\n</html>\n"

/-- `generateMermaidHtml`: the template with the escaped code — and only
the escaped code — interpolated into the `<pre class="mermaid">` element. -/
def generateMermaidHtml (env : HtmlEnv) (o : MermaidHtmlOptions) : String :=
  mermaidHtmlPre env o ++ String.mk (escapeCode o.code.data) ++ mermaidHtmlPost env o

/-! ### Concrete sample inputs used by closed theorems and witnesses -/

/-- Default size limits (`MAX_WIDTH = MAX_HEIGHT = 10000`). -/
def defaultEnv : RenderEnv := { maxWidth := 10000, maxHeight := 10000 }

/-- A representative validated request. -/
def sampleOptions : GenOptions :=
  { code := "graph TD\nA-->B", format := "svg", theme := "default",
    backgroundColor := "white", scale := 1 }

/-- An oracle where every awaited step settles successfully. -/
def okRenderOracle : RenderOracle :=
  { acquire := .ok (), writeHtml := .ok (), setViewport1 := .ok (), goto1 := .ok (),
    waitSelector1 := .ok (), waitFaIcons1 := .ok (), fixSvg1 := .ok (),
    svgElement1 := true, boundingBox1 := some (400, 300),
    setViewport2 := .ok (), goto2 := .ok (), waitSelector2 := .ok (),
    waitFaIcons2 := .ok (), fixSvg2 := .ok (), svgElementFinal := true,
    extractSvg := .ok (some "<svg></svg>"), boundingBox2 := some (400, 300),
    setViewport3 := .ok (), evalPdfStyle := .ok (), pdfData := .ok "pdf-bytes",
    evalPngViewBox := .ok (), screenshotData := .ok "png-bytes" }

/-- An oracle where the first navigation exceeds the render timeout: the
engine rejects `page.goto` with its own TimeoutError. -/
def timeoutRenderOracle : RenderOracle :=
  { okRenderOracle with
    goto1 := .error (.puppeteerTimeout "Navigation timeout of 30000 ms exceeded") }

end MermaidRender

namespace MermaidRender

/--
Claim C2 is violated by the code: `acquirePage` checks
`pages.length < maxPages` before `await browser.newPage()` and pushes the
new entry only after that suspension, so with `maxPages = 1` two callers
that interleave at the suspension both pass the check and both create a
page — the pool ends with two sessions simultaneously in use and two
sessions created, exceeding the configured maximum of one.
-/
theorem claim_C2_pool_bound_violated :
    poolRun 1 { pages := [], tasks := [TaskPhase.started, TaskPhase.started] }
        [PoolEvent.runAcquire 0, PoolEvent.runAcquire 1,
          PoolEvent.finishCreate 0, PoolEvent.finishCreate 1] =
      { pages := [true, true], tasks := [TaskPhase.holding 0, TaskPhase.holding 1] } ∧
    1 < inUseCount { pages := [true, true],
                     tasks := [TaskPhase.holding 0, TaskPhase.holding 1] } := by
  decide

/--
Claim C3 is violated by the code: in the default pooled pipeline a
navigation that exceeds the render timeout surfaces as the engine's own
TimeoutError, rethrown unchanged by the catch block — not as the distinct
`RenderTimeoutError` the boundary maps to a timeout response.  Only the
CLI fallback's `execWithTimeout` performs that mapping.
-/
theorem claim_C3_pooled_timeout_unmapped :
    (generateMermaidDiagram defaultEnv sampleOptions timeoutRenderOracle).result =
      .error (.puppeteerTimeout "Navigation timeout of 30000 ms exceeded") ∧
    isRenderTimeoutError (.puppeteerTimeout "Navigation timeout of 30000 ms exceeded") = false ∧
    execWithTimeout 30000 (.failure true (some "SIGTERM") "killed" "") =
      .error (.renderTimeoutError "Rendering timed out after 30 seconds") := by
  refine ⟨rfl, rfl, rfl⟩

/--
Claim C4 as stated is false: when no page frees within the 30s wait bound,
`waitForFreePage` rejects with a plain `new Error('Timeout waiting for
available page')` — a generic error, not a distinct pool-exhaustion error
type (no `PoolExhaustedError` class exists in the repository).
-/
theorem claim_C4_counterexample :
    waitForFreePage (fun _ => false) =
      .error (.generic "Timeout waiting for available page") ∧
    (∀ e, waitForFreePage (fun _ => false) = .error e → isGenericError e = true) := by
  have h : waitForFreePage (fun _ => false) =
      .error (.generic "Timeout waiting for available page") := by
    unfold waitForFreePage
    simp
  refine ⟨h, ?_⟩
  intro e he
  rw [h] at he
  simp only [Except.error.injEq] at he
  subst he
  rfl

/--
Claim C4 amended: when the pool is at its maximum and no session becomes
free at any of the 300 polls inside the 30-second wait bound, `acquirePage`
fails for that caller with a generic `Error` whose message is
`'Timeout waiting for available page'`; the repository defines no distinct
pool-exhaustion error type.
-/
theorem claim_C4_wait_timeout_generic (freeAt : Nat → Bool)
    (h : ∀ n < waitPollCount, freeAt n = false) :
    waitForFreePage freeAt = .error (.generic "Timeout waiting for available page") := by
  unfold waitForFreePage
  have hany : ((List.range waitPollCount).any fun n => freeAt n) = false := by
    rw [List.any_eq_false]
    intro x hx
    simp [h x (List.mem_range.mp hx)]
  simp [hany]

/-- Witness for the amended C4 with no page ever freed. -/
theorem claim_C4_wait_timeout_generic_witness :
    (∀ n < waitPollCount, (fun _ : Nat => false) n = false) ∧
    waitForFreePage (fun _ => false) =
      .error (.generic "Timeout waiting for available page") :=
  ⟨fun _ _ => rfl, claim_C4_wait_timeout_generic (fun _ => false) (fun _ _ => rfl)⟩

/--
Claim C5: every `generateMermaidDiagram` call that successfully acquires a
pooled session releases it exactly once in the `finally` block and leaves
no temporary HTML file behind, whether the body returned output or threw.
-/
theorem claim_C5_release_always (env : RenderEnv) (opts : GenOptions) (o : RenderOracle)
    (h : o.acquire = .ok ()) :
    (generateMermaidDiagram env opts o).releases = 1 ∧
    (generateMermaidDiagram env opts o).tempFileDeleted = true := by
  simp [generateMermaidDiagram, h]

/-- Witness for C5 on a failing path: the navigation-timeout oracle still
acquires successfully and the session is released exactly once. -/
theorem claim_C5_release_always_witness :
    (timeoutRenderOracle.acquire = .ok ()) ∧
    (generateMermaidDiagram defaultEnv sampleOptions timeoutRenderOracle).releases = 1 :=
  ⟨rfl, (claim_C5_release_always defaultEnv sampleOptions timeoutRenderOracle rfl).1⟩

/--
Claim C6: the effective density used for the second render pass equals
`min(requestedScale clamped to [1,10], max(1, min(floor(MAX_WIDTH / baseWidth),
floor(MAX_HEIGHT / baseHeight))))`; in particular, for base content size
400x300 under maximum dimensions 1000x1000, requestedScale = 10 yields
effective density 2.
-/
theorem claim_C6_scale_clamp :
    (∀ (scale : Int) (baseW baseH maxW maxH : Nat), 0 < baseW → 0 < baseH →
      actualScaleOf scale baseW baseH maxW maxH =
        specEffectiveDensity scale baseW baseH maxW maxH) ∧
    actualScaleOf 10 400 300 1000 1000 = 2 := by
  refine ⟨fun scale baseW baseH maxW maxH _ _ => rfl, by decide⟩

/-- Witness for C6 at base 400x300, limits 1000x1000, requested scale 10. -/
theorem claim_C6_scale_clamp_witness :
    (0 < 400 ∧ 0 < 300) ∧
      actualScaleOf 10 400 300 1000 1000 = specEffectiveDensity 10 400 300 1000 1000 :=
  ⟨⟨by decide, by decide⟩,
    claim_C6_scale_clamp.1 10 400 300 1000 1000 (by decide) (by decide)⟩

/--
Claim C7: `checkFileExists` is fail-open: it resolves `true` exactly when the
SDK confirms the object before the head timeout fires and with no error; any
timeout or remote error resolves `false`, and the promise never rejects
(total `Bool`-valued model).
-/
theorem claim_C7_check_fail_open (timeoutMs : Nat) (o : HeadOutcome) :
    checkFileExists timeoutMs o = true ↔ (o.delayMs < timeoutMs ∧ o.err = none) := by
  unfold checkFileExists
  rcases o with ⟨d, e⟩
  by_cases h : timeoutMs ≤ d
  · simp [h, Nat.not_lt.mpr h]
  · cases e <;> simp [h, Nat.lt_of_not_le h]

/--
Claim C8: `uploadToCosWithCacheKey` re-checks existence first; on a hit it
issues no upload and resolves `cached := true` with the resolved URL; on a
miss it uploads, rejecting with `CosUploadError` when the upload timer (60s
default) fires first or the store errors, and resolving `cached := false`
on success.
-/
theorem claim_C8_upload_recheck (cfg : CosCfg) (headT upT nowSec : Nat)
    (a : UploadWithCacheKeyArgs) (o : UploadOracle) :
    (checkFileExists headT o.head = true →
      (uploadToCosWithCacheKey cfg headT upT nowSec a o).2 = false ∧
      (∀ url, getCosUrl cfg (generateKeyByCacheKey cfg a.cacheKey a.format) a.urlType a.expires o.sign
            = .ok url →
        (uploadToCosWithCacheKey cfg headT upT nowSec a o).1 =
          .ok { url := url, key := generateKeyByCacheKey cfg a.cacheKey a.format,
                cached := true,
                expiresAt := if a.expires.getD cfg.defaultExpires > 0 then
                    some (nowSec + a.expires.getD cfg.defaultExpires) else none })) ∧
    (checkFileExists headT o.head = false →
      (uploadToCosWithCacheKey cfg headT upT nowSec a o).2 = true ∧
      (upT ≤ o.put.delayMs →
        (uploadToCosWithCacheKey cfg headT upT nowSec a o).1 =
          .error (.cosUploadError ("Upload timeout after " ++ toString upT ++ "ms"))) ∧
      (∀ m, o.put.delayMs < upT → o.put.err = some m →
        (uploadToCosWithCacheKey cfg headT upT nowSec a o).1 =
          .error (.cosUploadError ("Failed to upload to COS: " ++ m))) ∧
      (∀ url, o.put.delayMs < upT → o.put.err = none →
        getCosUrl cfg (generateKeyByCacheKey cfg a.cacheKey a.format) a.urlType a.expires o.sign
            = .ok url →
        (uploadToCosWithCacheKey cfg headT upT nowSec a o).1 =
          .ok { url := url, key := generateKeyByCacheKey cfg a.cacheKey a.format,
                cached := false,
                expiresAt := if a.expires.getD cfg.defaultExpires > 0 then
                    some (nowSec + a.expires.getD cfg.defaultExpires) else none })) := by
  constructor
  · intro hhit
    unfold uploadToCosWithCacheKey
    constructor
    · simp only [hhit]
      cases hg : getCosUrl cfg (generateKeyByCacheKey cfg a.cacheKey a.format) a.urlType a.expires o.sign <;>
        simp [hg]
    · intro url hurl
      simp [hhit, hurl]
  · intro hmiss
    unfold uploadToCosWithCacheKey
    refine ⟨?_, ?_, ?_, ?_⟩
    · simp only [hmiss]
      by_cases ht : upT ≤ o.put.delayMs
      · simp [ht]
      · cases he : o.put.err
        · cases hg : getCosUrl cfg (generateKeyByCacheKey cfg a.cacheKey a.format) a.urlType a.expires o.sign <;>
            simp [ht, he, hg]
        · simp [ht, he]
    · intro ht
      simp [hmiss, ht]
    · intro m hd he
      simp [hmiss, Nat.not_le.mpr hd, he]
    · intro url hd he hurl
      simp [hmiss, Nat.not_le.mpr hd, he, hurl]

/-- Witness for C8: a default configuration where the object already exists
(no upload issued), exercised with a permanent URL. -/
theorem claim_C8_upload_recheck_witness :
    (checkFileExists 2000 (HeadOutcome.mk 10 none) = true) ∧
    (uploadToCosWithCacheKey
        (CosCfg.mk "b-125" "ap-guangzhou" "" false "mermaid/" 0)
        2000 60000 1700000000
        (UploadWithCacheKeyArgs.mk "svg" "abcd1234" none none)
        (UploadOracle.mk (HeadOutcome.mk 10 none) (PutOutcome.mk 50 none) (SignOutcome.mk none ""))).2
      = false :=
  ⟨by decide,
    ((claim_C8_upload_recheck
        (CosCfg.mk "b-125" "ap-guangzhou" "" false "mermaid/" 0)
        2000 60000 1700000000
        (UploadWithCacheKeyArgs.mk "svg" "abcd1234" none none)
        (UploadOracle.mk (HeadOutcome.mk 10 none) (PutOutcome.mk 50 none) (SignOutcome.mk none ""))).1
      (by decide)).1⟩

/-- `hexVal` inverts `hexDigitChar` on hex digits. -/
theorem hexVal_hexDigitChar : ∀ k < 16, hexVal (hexDigitChar k) = some k := by decide

/-- One escaped character decodes back to itself in any continuation. -/
theorem jsonUnescape_escapeChar (c : Char) (l : List Char) :
    jsonUnescape (jsonEscapeChar c ++ l) = (jsonUnescape l).map (fun t => c :: t) := by
  by_cases h1 : c = '"'
  · subst h1
    have e0 : jsonEscapeChar '"' = ['\\', '"'] := by decide
    rw [e0, List.cons_append, List.cons_append, List.nil_append, jsonUnescape.eq_def]
    simp
  by_cases h2 : c = '\\'
  · subst h2
    have e0 : jsonEscapeChar '\\' = ['\\', '\\'] := by decide
    rw [e0, List.cons_append, List.cons_append, List.nil_append, jsonUnescape.eq_def]
    simp
  by_cases h3 : c = '\n'
  · subst h3
    have e0 : jsonEscapeChar '\n' = ['\\', 'n'] := by decide
    rw [e0, List.cons_append, List.cons_append, List.nil_append, jsonUnescape.eq_def]
    simp
  by_cases h4 : c = '\r'
  · subst h4
    have e0 : jsonEscapeChar '\r' = ['\\', 'r'] := by decide
    rw [e0, List.cons_append, List.cons_append, List.nil_append, jsonUnescape.eq_def]
    simp
  by_cases h5 : c = '\t'
  · subst h5
    have e0 : jsonEscapeChar '\t' = ['\\', 't'] := by decide
    rw [e0, List.cons_append, List.cons_append, List.nil_append, jsonUnescape.eq_def]
    simp
  by_cases h6 : c.toNat = 8
  · have hc : c = Char.ofNat 8 := by
      have := Char.ofNat_toNat c
      rw [h6] at this
      exact this.symm
    subst hc
    have e0 : jsonEscapeChar (Char.ofNat 8) = ['\\', 'b'] := by decide
    rw [e0, List.cons_append, List.cons_append, List.nil_append, jsonUnescape.eq_def]
    simp
  by_cases h7 : c.toNat = 12
  · have hc : c = Char.ofNat 12 := by
      have := Char.ofNat_toNat c
      rw [h7] at this
      exact this.symm
    subst hc
    have e0 : jsonEscapeChar (Char.ofNat 12) = ['\\', 'f'] := by decide
    rw [e0, List.cons_append, List.cons_append, List.nil_append, jsonUnescape.eq_def]
    simp
  by_cases h8 : c.toNat < 32
  · have e : jsonEscapeChar c =
        ['\\', 'u', '0', '0', hexDigitChar (c.toNat / 16), hexDigitChar (c.toNat % 16)] := by
      unfold jsonEscapeChar
      rw [if_neg h1, if_neg h2, if_neg h3, if_neg h4, if_neg h5, if_neg h6, if_neg h7,
        if_pos h8]
    have d0 : hexVal '0' = some 0 := by decide
    have d1 : hexVal (hexDigitChar (c.toNat / 16)) = some (c.toNat / 16) :=
      hexVal_hexDigitChar _ (by omega)
    have d2 : hexVal (hexDigitChar (c.toNat % 16)) = some (c.toNat % 16) :=
      hexVal_hexDigitChar _ (by omega)
    rw [e]
    simp only [List.cons_append, List.nil_append]
    rw [jsonUnescape.eq_def]
    simp only [d0, d1, d2]
    have harith : 16 * (c.toNat / 16) + c.toNat % 16 = c.toNat := by omega
    simp [harith, Char.ofNat_toNat]
  · have e : jsonEscapeChar c = [c] := by
      unfold jsonEscapeChar
      rw [if_neg h1, if_neg h2, if_neg h3, if_neg h4, if_neg h5, if_neg h6, if_neg h7,
        if_neg h8]
    rw [e]
    rw [List.cons_append, List.nil_append, jsonUnescape.eq_def]
    simp [h2]

/-- The escape of a string decodes back in any continuation. -/
theorem jsonUnescape_append_escape (s l : List Char) :
    jsonUnescape (jsonEscape s ++ l) = (jsonUnescape l).map (fun t => s ++ t) := by
  induction s with
  | nil =>
    simp [jsonEscape]
  | cons c cs ih =>
    rw [jsonEscape, List.flatMap_cons, List.append_assoc]
    rw [show cs.flatMap jsonEscapeChar = jsonEscape cs from rfl]
    rw [jsonUnescape_escapeChar, ih]
    cases jsonUnescape l <;> simp

/-- The JSON string-body escape round-trips. -/
theorem jsonUnescape_jsonEscape (s : List Char) : jsonUnescape (jsonEscape s) = some s := by
  have h := jsonUnescape_append_escape s []
  simpa [jsonUnescape] using h

/-- The JSON string-body escape is injective. -/
theorem jsonEscape_inj : Function.Injective jsonEscape := by
  intro a b h
  have ha := jsonUnescape_jsonEscape a
  rw [h, jsonUnescape_jsonEscape] at ha
  exact (Option.some_inj.mp ha).symm

/-- ASCII digit characters are injective below 10. -/
theorem digitChar_inj48 : ∀ a < 10, ∀ b < 10,
    Char.ofNat (48 + a) = Char.ofNat (48 + b) → a = b := by decide

/-- A decimal numeral is never empty. -/
theorem natChars_ne_nil (n : Nat) : natChars n ≠ [] := by
  rw [natChars.eq_def]
  split <;> simp

/-- Unfolding of `natChars` below 10. -/
theorem natChars_small {n : Nat} (h : n < 10) : natChars n = [Char.ofNat (48 + n)] := by
  rw [natChars.eq_def, if_pos h]

/-- Unfolding of `natChars` at 10 and above. -/
theorem natChars_big {n : Nat} (h : ¬n < 10) :
    natChars n = natChars (n / 10) ++ [Char.ofNat (48 + n % 10)] := by
  conv_lhs => rw [natChars.eq_def]
  rw [if_neg h]

/-- Every character of a decimal numeral is an ASCII digit. -/
theorem natChars_digits (n : Nat) : ∀ c ∈ natChars n, 48 ≤ c.toNat ∧ c.toNat ≤ 57 := by
  induction n using Nat.strong_induction_on with
  | _ n ih =>
    intro c hc
    rw [natChars.eq_def] at hc
    by_cases h : n < 10
    · rw [if_pos h] at hc
      simp only [List.mem_singleton] at hc
      subst hc
      have hd : ∀ m < 10,
          48 ≤ (Char.ofNat (48 + m)).toNat ∧ (Char.ofNat (48 + m)).toNat ≤ 57 := by decide
      exact hd n h
    · rw [if_neg h, List.mem_append] at hc
      rcases hc with hc | hc
      · exact ih (n / 10) (Nat.div_lt_self (by omega) (by omega)) c hc
      · simp only [List.mem_singleton] at hc
        subst hc
        have hd : ∀ m < 10,
            48 ≤ (Char.ofNat (48 + m)).toNat ∧ (Char.ofNat (48 + m)).toNat ≤ 57 := by decide
        exact hd (n % 10) (Nat.mod_lt _ (by omega))

/-- Decimal numerals of naturals are injective. -/
theorem natChars_inj : ∀ m n : Nat, natChars m = natChars n → m = n := by
  intro m
  induction m using Nat.strong_induction_on with
  | _ m ih =>
    intro n h
    by_cases hm : m < 10 <;> by_cases hn : n < 10
    · rw [natChars_small hm, natChars_small hn] at h
      simp only [List.cons.injEq, and_true] at h
      exact digitChar_inj48 m hm n hn h
    · exfalso
      rw [natChars_small hm, natChars_big hn] at h
      have hlen := congrArg List.length h
      have hp : 0 < (natChars (n / 10)).length := List.length_pos.mpr (natChars_ne_nil _)
      simp only [List.length_singleton, List.length_append] at hlen
      omega
    · exfalso
      rw [natChars_big hm, natChars_small hn] at h
      have hlen := congrArg List.length h
      have hp : 0 < (natChars (m / 10)).length := List.length_pos.mpr (natChars_ne_nil _)
      simp only [List.length_singleton, List.length_append] at hlen
      omega
    · rw [natChars_big hm, natChars_big hn] at h
      have hrev := congrArg List.reverse h
      simp only [List.reverse_append, List.reverse_cons, List.reverse_nil,
        List.nil_append, List.singleton_append, List.cons.injEq] at hrev
      obtain ⟨h1, h2⟩ := hrev
      have hdiv : m / 10 = n / 10 :=
        ih (m / 10) (Nat.div_lt_self (by omega) (by omega)) (n / 10)
          (List.reverse_injective h2)
      have hmod : m % 10 = n % 10 :=
        digitChar_inj48 _ (Nat.mod_lt _ (by omega)) _ (Nat.mod_lt _ (by omega)) h1
      omega

/-- A decimal numeral is never the JSON `null` literal. -/
theorem natChars_ne_null (n : Nat) : natChars n ≠ nullChars := by
  intro h
  have hmem : ('n' : Char) ∈ natChars n := by
    rw [h]; simp [nullChars]
  have hd := natChars_digits n 'n' hmem
  revert hd
  decide

/-- An integer numeral is never the JSON `null` literal. -/
theorem intChars_ne_null (i : Int) : intChars i ≠ nullChars := by
  unfold intChars
  split
  · intro h
    rw [nullChars] at h
    simp only [List.cons.injEq] at h
    exact absurd h.1 (by decide)
  · exact natChars_ne_null _

/-- Decimal numerals of integers are injective. -/
theorem intChars_inj : Function.Injective intChars := by
  intro a b h
  unfold intChars at h
  by_cases ha : a < 0 <;> by_cases hb : b < 0
  · rw [if_pos ha, if_pos hb] at h
    simp only [List.cons.injEq, true_and] at h
    have := natChars_inj _ _ h
    omega
  · exfalso
    rw [if_pos ha, if_neg hb] at h
    rcases hcn : natChars b.toNat with _ | ⟨c, t⟩
    · exact natChars_ne_nil _ hcn
    · rw [hcn] at h
      simp only [List.cons.injEq] at h
      have hd := natChars_digits b.toNat c (by rw [hcn]; simp)
      rw [← h.1] at hd
      revert hd
      decide
  · exfalso
    rw [if_neg ha, if_pos hb] at h
    rcases hcn : natChars a.toNat with _ | ⟨c, t⟩
    · exact natChars_ne_nil _ hcn
    · rw [hcn] at h
      simp only [List.cons.injEq] at h
      have hd := natChars_digits a.toNat c (by rw [hcn]; simp)
      rw [h.1] at hd
      revert hd
      decide
  · rw [if_neg ha, if_neg hb] at h
    have := natChars_inj _ _ h
    omega

/-- The scanner consumes a backslash pair whole. -/
theorem splitStrBody_cons_esc (d : Char) (l : List Char) :
    splitStrBody ('\\' :: d :: l) =
      (splitStrBody l).map (fun p => ('\\' :: d :: p.1, p.2)) := by
  conv_lhs => rw [splitStrBody.eq_def]
  simp

/-- The scanner consumes an ordinary character and goes on. -/
theorem splitStrBody_cons_plain (c : Char) (l : List Char) (h1 : c ≠ '"') (h2 : c ≠ '\\') :
    splitStrBody (c :: l) = (splitStrBody l).map (fun p => (c :: p.1, p.2)) := by
  conv_lhs => rw [splitStrBody.eq_def]
  simp only [if_neg h1, if_neg h2]

/-- Scanning one escaped character never stops: entities start with a
backslash pair or are ordinary characters distinct from the quote. -/
theorem splitStrBody_escapeChar (c : Char) (l : List Char) :
    splitStrBody (jsonEscapeChar c ++ l) =
      (splitStrBody l).map (fun p => (jsonEscapeChar c ++ p.1, p.2)) := by
  by_cases h1 : c = '"'
  · subst h1
    have e0 : jsonEscapeChar '"' = ['\\', '"'] := by decide
    rw [e0, List.cons_append, List.cons_append, List.nil_append, splitStrBody_cons_esc]
    simp
  by_cases h2 : c = '\\'
  · subst h2
    have e0 : jsonEscapeChar '\\' = ['\\', '\\'] := by decide
    rw [e0, List.cons_append, List.cons_append, List.nil_append, splitStrBody_cons_esc]
    simp
  by_cases h3 : c = '\n'
  · subst h3
    have e0 : jsonEscapeChar '\n' = ['\\', 'n'] := by decide
    rw [e0, List.cons_append, List.cons_append, List.nil_append, splitStrBody_cons_esc]
    simp
  by_cases h4 : c = '\r'
  · subst h4
    have e0 : jsonEscapeChar '\r' = ['\\', 'r'] := by decide
    rw [e0, List.cons_append, List.cons_append, List.nil_append, splitStrBody_cons_esc]
    simp
  by_cases h5 : c = '\t'
  · subst h5
    have e0 : jsonEscapeChar '\t' = ['\\', 't'] := by decide
    rw [e0, List.cons_append, List.cons_append, List.nil_append, splitStrBody_cons_esc]
    simp
  by_cases h6 : c.toNat = 8
  · have hc : c = Char.ofNat 8 := by
      have hx := Char.ofNat_toNat c
      rw [h6] at hx
      exact hx.symm
    subst hc
    have e0 : jsonEscapeChar (Char.ofNat 8) = ['\\', 'b'] := by decide
    rw [e0, List.cons_append, List.cons_append, List.nil_append, splitStrBody_cons_esc]
    simp
  by_cases h7 : c.toNat = 12
  · have hc : c = Char.ofNat 12 := by
      have hx := Char.ofNat_toNat c
      rw [h7] at hx
      exact hx.symm
    subst hc
    have e0 : jsonEscapeChar (Char.ofNat 12) = ['\\', 'f'] := by decide
    rw [e0, List.cons_append, List.cons_append, List.nil_append, splitStrBody_cons_esc]
    simp
  by_cases h8 : c.toNat < 32
  · have e : jsonEscapeChar c =
        ['\\', 'u', '0', '0', hexDigitChar (c.toNat / 16), hexDigitChar (c.toNat % 16)] := by
      unfold jsonEscapeChar
      rw [if_neg h1, if_neg h2, if_neg h3, if_neg h4, if_neg h5, if_neg h6, if_neg h7,
        if_pos h8]
    have hx1 : hexDigitChar (c.toNat / 16) ≠ '"' ∧ hexDigitChar (c.toNat / 16) ≠ '\\' := by
      have hb : ∀ k < 16, hexDigitChar k ≠ '"' ∧ hexDigitChar k ≠ '\\' := by decide
      exact hb _ (by omega)
    have hx2 : hexDigitChar (c.toNat % 16) ≠ '"' ∧ hexDigitChar (c.toNat % 16) ≠ '\\' := by
      have hb : ∀ k < 16, hexDigitChar k ≠ '"' ∧ hexDigitChar k ≠ '\\' := by decide
      exact hb _ (by omega)
    rw [e]
    simp only [List.cons_append, List.nil_append]
    rw [splitStrBody_cons_esc,
      splitStrBody_cons_plain '0' _ (by decide) (by decide),
      splitStrBody_cons_plain '0' _ (by decide) (by decide),
      splitStrBody_cons_plain _ _ hx1.1 hx1.2,
      splitStrBody_cons_plain _ _ hx2.1 hx2.2]
    cases splitStrBody l <;> simp
  · have e : jsonEscapeChar c = [c] := by
      unfold jsonEscapeChar
      rw [if_neg h1, if_neg h2, if_neg h3, if_neg h4, if_neg h5, if_neg h6, if_neg h7,
        if_neg h8]
    rw [e, List.cons_append, List.nil_append, splitStrBody_cons_plain _ _ h1 h2]
    simp

/-- The scan of an escaped body followed by its closing quote returns
exactly the body: a serialized string literal is self-delimiting. -/
theorem splitStrBody_escape (s r : List Char) :
    splitStrBody (jsonEscape s ++ ('"' :: r)) = some (jsonEscape s, r) := by
  induction s with
  | nil =>
    rw [show jsonEscape [] = [] from rfl, List.nil_append, splitStrBody.eq_def]
    simp [jsonEscape]
  | cons c cs ih =>
    rw [jsonEscape, List.flatMap_cons, List.append_assoc,
      show cs.flatMap jsonEscapeChar = jsonEscape cs from rfl,
      splitStrBody_escapeChar, ih]
    simp [jsonEscape]

/-- String fields are recovered from any concatenation continuation. -/
theorem strLit_head_inj {a b : String} {x y : List Char}
    (h : jsonStrLit a ++ x = jsonStrLit b ++ y) : a = b ∧ x = y := by
  unfold jsonStrLit at h
  simp only [List.cons_append, List.append_assoc, List.singleton_append,
    List.cons.injEq, true_and] at h
  have h3 := congrArg splitStrBody h
  rw [splitStrBody_escape, splitStrBody_escape] at h3
  simp only [Option.some.injEq, Prod.mk.injEq] at h3
  exact ⟨String.ext (jsonEscape_inj h3.1), h3.2⟩

/-- No character of a serialized number-or-null field is a comma. -/
theorem jsonNumOrNull_no_comma (w : Option Int) : ∀ c ∈ jsonNumOrNull w, c ≠ ',' := by
  have hnat : ∀ n : Nat, ∀ c ∈ natChars n, c ≠ ',' := by
    intro n c hc he
    have hd := natChars_digits n c hc
    rw [he] at hd
    revert hd
    decide
  have hnull : ∀ c ∈ nullChars, c ≠ ',' := by decide
  have hint : ∀ i : Int, ∀ c ∈ intChars i, c ≠ ',' := by
    intro i c hc
    unfold intChars at hc
    by_cases hi : i < 0
    · rw [if_pos hi] at hc
      rcases List.mem_cons.mp hc with rfl | hc
      · decide
      · exact hnat _ c hc
    · rw [if_neg hi] at hc
      exact hnat _ c hc
  intro c hc
  unfold jsonNumOrNull at hc
  rcases w with _ | v
  · exact hnull c hc
  · dsimp only at hc
    by_cases hv : v = 0
    · rw [if_pos hv] at hc
      exact hnull c hc
    · rw [if_neg hv] at hc
      exact hint v c hc

/-- The scan up to a comma returns a comma-free chunk unchanged. -/
theorem splitUntilComma_append (l r : List Char) (h : ∀ c ∈ l, c ≠ ',') :
    splitUntilComma (l ++ (',' :: r)) = some (l, r) := by
  induction l with
  | nil =>
    rw [List.nil_append, splitUntilComma.eq_def]
    simp
  | cons c cs ih =>
    have hc : c ≠ ',' := h c (by simp)
    rw [List.cons_append, splitUntilComma.eq_def]
    simp only [if_neg hc]
    rw [ih (fun d hd => h d (by simp [hd]))]
    rfl

/-- Serialized number-or-null fields discriminate exactly the effective
(`|| null`-collapsed) value. -/
theorem jsonNumOrNull_inj {w1 w2 : Option Int}
    (h : jsonNumOrNull w1 = jsonNumOrNull w2) : effNum w1 = effNum w2 := by
  unfold jsonNumOrNull at h
  unfold effNum
  rcases w1 with _ | v1 <;> rcases w2 with _ | v2 <;> dsimp only at h ⊢
  · by_cases h2 : v2 = 0
    · rw [if_pos h2]
    · rw [if_neg h2] at h ⊢
      exact absurd h.symm (intChars_ne_null v2)
  · by_cases h1 : v1 = 0
    · rw [if_pos h1]
    · rw [if_neg h1] at h ⊢
      exact absurd h (intChars_ne_null v1)
  · by_cases h1 : v1 = 0 <;> by_cases h2 : v2 = 0
    · rw [if_pos h1, if_pos h2]
    · rw [if_pos h1] at h
      rw [if_neg h2] at h ⊢
      rw [if_pos h1]
      exact absurd h.symm (intChars_ne_null v2)
    · rw [if_pos h2] at h
      rw [if_neg h1] at h ⊢
      rw [if_pos h2]
      exact absurd h (intChars_ne_null v1)
    · rw [if_neg h1, if_neg h2] at h ⊢
      rw [intChars_inj h]

/-- Number-or-null fields are recovered (up to the `|| null` collapse) from
any continuation that starts with the following comma. -/
theorem numField_head_inj {w1 w2 : Option Int} {x y : List Char}
    (h : jsonNumOrNull w1 ++ (',' :: x) = jsonNumOrNull w2 ++ (',' :: y)) :
    effNum w1 = effNum w2 ∧ x = y := by
  have h3 := congrArg splitUntilComma h
  rw [splitUntilComma_append _ _ (jsonNumOrNull_no_comma w1),
    splitUntilComma_append _ _ (jsonNumOrNull_no_comma w2)] at h3
  simp only [Option.some.injEq, Prod.mk.injEq] at h3
  exact ⟨jsonNumOrNull_inj h3.1, h3.2⟩

/-- The key content determines every serialized field value. -/
theorem keyContentOf_inj {c1 c2 f1 f2 t1 t2 : String} {w1 w2 g1 g2 : Option Int}
    {b1 b2 : String} {s1 s2 : Int}
    (h : keyContentOf c1 f1 t1 w1 g1 b1 s1 = keyContentOf c2 f2 t2 w2 g2 b2 s2) :
    c1 = c2 ∧ f1 = f2 ∧ t1 = t2 ∧ effNum w1 = effNum w2 ∧ effNum g1 = effNum g2 ∧
      b1 = b2 ∧ s1 = s2 := by
  unfold keyContentOf at h
  simp only [List.cons_append, List.nil_append, List.append_assoc, List.cons.injEq,
    eq_self_iff_true, true_and] at h
  obtain ⟨hc, h2⟩ := strLit_head_inj h
  simp only [List.cons.injEq, eq_self_iff_true, true_and] at h2
  obtain ⟨hf, h4⟩ := strLit_head_inj h2
  simp only [List.cons.injEq, eq_self_iff_true, true_and] at h4
  obtain ⟨ht, h6⟩ := strLit_head_inj h4
  simp only [List.cons.injEq, eq_self_iff_true, true_and] at h6
  obtain ⟨hw, h8⟩ := numField_head_inj h6
  simp only [List.cons.injEq, eq_self_iff_true, true_and] at h8
  obtain ⟨hg, h10⟩ := numField_head_inj h8
  simp only [List.cons.injEq, eq_self_iff_true, true_and] at h10
  obtain ⟨hb, h12⟩ := strLit_head_inj h10
  simp only [List.cons.injEq, eq_self_iff_true, true_and] at h12
  have hs := intChars_inj (List.append_cancel_right h12)
  exact ⟨hc, hf, ht, hw, hg, hb, hs⟩

/-- A single-character global replace distributes over concatenation. -/
theorem replaceChar_append (c : Char) (rep l1 l2 : List Char) :
    replaceChar c rep (l1 ++ l2) = replaceChar c rep l1 ++ replaceChar c rep l2 := by
  induction l1 with
  | nil => rfl
  | cons x xs ih => simp [replaceChar, ih, List.append_assoc]

/-- The five chained replaces act on one character at a time: the source
order (`&` first) guarantees the entities inserted by one stage are not
re-escaped by a later stage. -/
theorem escapeCode_cons (x : Char) (xs : List Char) :
    escapeCode (x :: xs) = htmlEntity x ++ escapeCode xs := by
  unfold escapeCode
  have h1 : replaceChar '&' ampEnt (x :: xs) =
      (if x = '&' then ampEnt else [x]) ++ replaceChar '&' ampEnt xs := rfl
  rw [h1, replaceChar_append, replaceChar_append, replaceChar_append, replaceChar_append]
  congr 1
  by_cases e1 : x = '&'
  · subst e1; decide
  · by_cases e2 : x = '<'
    · subst e2; decide
    · by_cases e3 : x = '>'
      · subst e3; decide
      · by_cases e4 : x = '"'
        · subst e4; decide
        · by_cases e5 : x = aposChar
          · subst e5; decide
          · simp [replaceChar, htmlEntity, e1, e2, e3, e4, e5]

/-- The chained replaces equal the single-pass entity substitution. -/
theorem escapeCode_eq_entity_map (s : List Char) : escapeCode s = s.flatMap htmlEntity := by
  induction s with
  | nil => rfl
  | cons x xs ih => rw [escapeCode_cons, ih, List.flatMap_cons]

/-- No character of an entity expansion is a raw `<`, `>`, `"` or
apostrophe. -/
theorem htmlEntity_no_raw (x : Char) :
    ∀ c ∈ htmlEntity x, c ≠ '<' ∧ c ≠ '>' ∧ c ≠ '"' ∧ c ≠ aposChar := by
  intro c hc
  unfold htmlEntity at hc
  by_cases e1 : x = '&'
  · rw [if_pos e1] at hc
    simp only [ampEnt, List.mem_cons, List.not_mem_nil, or_false] at hc
    rcases hc with rfl | rfl | rfl | rfl | rfl <;> decide
  · rw [if_neg e1] at hc
    by_cases e2 : x = '<'
    · rw [if_pos e2] at hc
      simp only [ltEnt, List.mem_cons, List.not_mem_nil, or_false] at hc
      rcases hc with rfl | rfl | rfl | rfl <;> decide
    · rw [if_neg e2] at hc
      by_cases e3 : x = '>'
      · rw [if_pos e3] at hc
        simp only [gtEnt, List.mem_cons, List.not_mem_nil, or_false] at hc
        rcases hc with rfl | rfl | rfl | rfl <;> decide
      · rw [if_neg e3] at hc
        by_cases e4 : x = '"'
        · rw [if_pos e4] at hc
          simp only [quotEnt, List.mem_cons, List.not_mem_nil, or_false] at hc
          rcases hc with rfl | rfl | rfl | rfl | rfl | rfl <;> decide
        · rw [if_neg e4] at hc
          by_cases e5 : x = aposChar
          · rw [if_pos e5] at hc
            simp only [aposEnt, List.mem_cons, List.not_mem_nil, or_false] at hc
            rcases hc with rfl | rfl | rfl | rfl | rfl <;> decide
          · rw [if_neg e5] at hc
            simp only [List.mem_singleton] at hc
            subst hc
            exact ⟨e2, e3, e4, e5⟩

/--
Claim C10: `generateMermaidHtml` interpolates the diagram code into the
document only after the five chained replaces; those replaces equal the
single-pass substitution sending every occurrence of `&`, `<`, `>`, `"`,
`'` to `&amp;`, `&lt;`, `&gt;`, `&quot;`, `&#39;` respectively, so the
escaped text contains no raw `<`, `>`, `"` or `'` character and the raw
code is never embedded unescaped.
-/
theorem claim_C10_html_code_escaped :
    (∀ env o, generateMermaidHtml env o =
        mermaidHtmlPre env o ++ String.mk (escapeCode o.code.data) ++ mermaidHtmlPost env o) ∧
    (∀ s : List Char, escapeCode s = s.flatMap htmlEntity) ∧
    (∀ s : List Char, ∀ c ∈ escapeCode s,
      c ≠ '<' ∧ c ≠ '>' ∧ c ≠ '"' ∧ c ≠ aposChar) := by
  refine ⟨fun env o => rfl, escapeCode_eq_entity_map, ?_⟩
  intro s c hc
  rw [escapeCode_eq_entity_map] at hc
  rcases List.mem_flatMap.mp hc with ⟨x, _, hx⟩
  exact htmlEntity_no_raw x c hx

/-- Witness for C10 on the code `<`: its escape is `&lt;`, whose member
`&` is none of the raw special characters. -/
theorem claim_C10_html_code_escaped_witness :
    ('&' ∈ escapeCode ['<']) ∧
    ('&' ≠ '<' ∧ '&' ≠ '>' ∧ '&' ≠ '"' ∧ '&' ≠ aposChar) :=
  ⟨by decide, claim_C10_html_code_escaped.2.2 ['<'] '&' (by decide)⟩

/-- `String.mk` is injective (used to instantiate the abstract digest). -/
theorem stringMk_inj : Function.Injective String.mk := by
  intro a b h
  injection h

/--
Claim C1: `generateCacheKey` is deterministic and complete over the
render-affecting fields: requests with identical code, format, theme,
width, height, backgroundColor and scale (after the source's destructuring
defaults and the `|| null` collapse) get byte-identical digests; changing
any single one of those fields — scale included — changes the digest
whenever the digest function has no collision (md5 injective in the model);
and the digest never depends on the delivery options: the orchestrator's
per-call fingerprint is `generateCacheKey` of exactly the affecting fields,
so two bodies differing only in `return`/`urlType`/`expires` share it.
-/
theorem claim_C1_fingerprint (md5 : List Char → String)
    (hinj : Function.Injective md5) :
    (∀ k1 k2 : CacheKeyOpts, k1.code = k2.code → k1.format = k2.format →
      effTheme k1 = effTheme k2 → k1.width = k2.width → k1.height = k2.height →
      effBg k1 = effBg k2 → effScale k1 = effScale k2 →
      generateCacheKey md5 k1 = generateCacheKey md5 k2) ∧
    (∀ (k : CacheKeyOpts) (c' : String), c' ≠ k.code →
      generateCacheKey md5 { k with code := c' } ≠ generateCacheKey md5 k) ∧
    (∀ (k : CacheKeyOpts) (f' : String), f' ≠ k.format →
      generateCacheKey md5 { k with format := f' } ≠ generateCacheKey md5 k) ∧
    (∀ (k : CacheKeyOpts) (t' : String), t' ≠ effTheme k →
      generateCacheKey md5 { k with theme := some t' } ≠ generateCacheKey md5 k) ∧
    (∀ (k : CacheKeyOpts) (w' : Option Int), effNum w' ≠ effNum k.width →
      generateCacheKey md5 { k with width := w' } ≠ generateCacheKey md5 k) ∧
    (∀ (k : CacheKeyOpts) (h' : Option Int), effNum h' ≠ effNum k.height →
      generateCacheKey md5 { k with height := h' } ≠ generateCacheKey md5 k) ∧
    (∀ (k : CacheKeyOpts) (b' : String), b' ≠ effBg k →
      generateCacheKey md5 { k with backgroundColor := some b' } ≠ generateCacheKey md5 k) ∧
    (∀ (k : CacheKeyOpts) (s' : Int), s' ≠ effScale k →
      generateCacheKey md5 { k with scale := some s' } ≠ generateCacheKey md5 k) ∧
    (∀ b1 b2 : GenerateBody, b1.code = b2.code → b1.format = b2.format →
      b1.theme = b2.theme → b1.width = b2.width → b1.height = b2.height →
      b1.backgroundColor = b2.backgroundColor →
      routeCacheKey md5 b1 = routeCacheKey md5 b2) ∧
    (∀ b : GenerateBody,
      routeCacheKey md5 b = generateCacheKey md5 (routeAffectingKey b)) := by
  refine ⟨?_, ?_, ?_, ?_, ?_, ?_, ?_, ?_, ?_, fun b => rfl⟩
  · intro k1 k2 h1 h2 h3 h4 h5 h6 h7
    unfold generateCacheKey keyContent
    rw [h1, h2, h3, h4, h5, h6, h7]
  · intro k c' hne heq
    have h0 : keyContentOf c' k.format (effTheme k) k.width k.height (effBg k) (effScale k) =
        keyContentOf k.code k.format (effTheme k) k.width k.height (effBg k) (effScale k) :=
      hinj heq
    exact hne (keyContentOf_inj h0).1
  · intro k f' hne heq
    have h0 : keyContentOf k.code f' (effTheme k) k.width k.height (effBg k) (effScale k) =
        keyContentOf k.code k.format (effTheme k) k.width k.height (effBg k) (effScale k) :=
      hinj heq
    exact hne (keyContentOf_inj h0).2.1
  · intro k t' hne heq
    have h0 : keyContentOf k.code k.format t' k.width k.height (effBg k) (effScale k) =
        keyContentOf k.code k.format (effTheme k) k.width k.height (effBg k) (effScale k) :=
      hinj heq
    exact hne (keyContentOf_inj h0).2.2.1
  · intro k w' hne heq
    have h0 : keyContentOf k.code k.format (effTheme k) w' k.height (effBg k) (effScale k) =
        keyContentOf k.code k.format (effTheme k) k.width k.height (effBg k) (effScale k) :=
      hinj heq
    exact hne (keyContentOf_inj h0).2.2.2.1
  · intro k h' hne heq
    have h0 : keyContentOf k.code k.format (effTheme k) k.width h' (effBg k) (effScale k) =
        keyContentOf k.code k.format (effTheme k) k.width k.height (effBg k) (effScale k) :=
      hinj heq
    exact hne (keyContentOf_inj h0).2.2.2.2.1
  · intro k b' hne heq
    have h0 : keyContentOf k.code k.format (effTheme k) k.width k.height b' (effScale k) =
        keyContentOf k.code k.format (effTheme k) k.width k.height (effBg k) (effScale k) :=
      hinj heq
    exact hne (keyContentOf_inj h0).2.2.2.2.2.1
  · intro k s' hne heq
    have h0 : keyContentOf k.code k.format (effTheme k) k.width k.height (effBg k) s' =
        keyContentOf k.code k.format (effTheme k) k.width k.height (effBg k) (effScale k) :=
      hinj heq
    exact hne (keyContentOf_inj h0).2.2.2.2.2.2
  · intro b1 b2 h1 h2 h3 h4 h5 h6
    unfold routeCacheKey routeAffectingKey
    rw [h1, h2, h3, h4, h5, h6]

/-- Witness for C1: instantiating the digest with the injective `String.mk`,
changing only `scale` from its default 1 to 2 changes the digest. -/
theorem claim_C1_fingerprint_witness :
    Function.Injective String.mk ∧
    ((2 : Int) ≠ effScale (CacheKeyOpts.mk "graph TD" "svg" none none none none none)) ∧
    generateCacheKey String.mk
        { CacheKeyOpts.mk "graph TD" "svg" none none none none none with scale := some 2 } ≠
      generateCacheKey String.mk (CacheKeyOpts.mk "graph TD" "svg" none none none none none) :=
  ⟨stringMk_inj, by decide,
    (claim_C1_fingerprint String.mk stringMk_inj).2.2.2.2.2.2.2.1
      (CacheKeyOpts.mk "graph TD" "svg" none none none none none) 2 (by decide)⟩

/--
Claim C9: for every request with return format `url` whose
fingerprint-derived object the remote store reports as existing (a truthy
URL and key), the orchestrator responds with the remote URL, `cached =
true` and `cacheSource = "cos"`, and its only awaited service call is the
COS existence check: the local cache is never consulted, the pipeline is
never invoked, and (since only the pipeline acquires pool sessions) no
session is acquired.
-/
theorem claim_C9_durable_url_short_circuit (b : GenerateBody) (o : RouteOracle)
    (cacheEnabled : Bool) (hret : effRet b = "url")
    (hfound : o.cosCheck.found = true) (hurl : truthyStr o.cosCheck.url = true)
    (hkey : truthyStr o.cosCheck.key = true) :
    routeGenerate b o cacheEnabled =
      ({ status := 200, cached := true, cacheSource := some "cos",
         contentType := some (getContentTypeForFormat (jsOrDefault b.format "svg")),
         url := o.cosCheck.url, key := o.cosCheck.key,
         expiresAt := o.cosCheck.expiresAt, body := none },
       [RouteAction.cosCheckCall]) := by
  unfold routeGenerate
  rw [if_pos ⟨hret, by rw [hfound, hurl, hkey]; rfl⟩]

/-- Witness for C9 with a concrete `return=url` body and a remote hit. -/
theorem claim_C9_durable_url_short_circuit_witness :
    (effRet (GenerateBody.mk "graph TD" none none none none none (some "url") none none)
        = "url") ∧
    (routeGenerate
        (GenerateBody.mk "graph TD" none none none none none (some "url") none none)
        (RouteOracle.mk (CheckCosResult.mk true (some "https://b.cos.r.tencentcos.cn/mermaid/ab/abcd.svg")
            (some "mermaid/ab/abcd.svg") none)
          none (Except.ok (RenderOutput.mk "" "")) (Except.ok (UploadResult.mk "" "" false none)))
        true).2
      = [RouteAction.cosCheckCall] :=
  ⟨by decide,
    by
      rw [claim_C9_durable_url_short_circuit
        (GenerateBody.mk "graph TD" none none none none none (some "url") none none)
        (RouteOracle.mk (CheckCosResult.mk true (some "https://b.cos.r.tencentcos.cn/mermaid/ab/abcd.svg")
            (some "mermaid/ab/abcd.svg") none)
          none (Except.ok (RenderOutput.mk "" "")) (Except.ok (UploadResult.mk "" "" false none)))
        true (by decide) rfl (by decide) (by decide)]⟩

end MermaidRender
